import Mathlib

/-!
Verification of the Vedic-calendar solar calculator (`src/vedic-calendar.js`).

The JavaScript source is shallowly embedded here.  Pure arithmetic on IEEE
doubles is modelled by arithmetic on `ℝ`; the host `Date` object is modelled
by its calendar fields (proleptic Gregorian, uniform 86 400 000-millisecond
days) plus a time-of-day component, and a produced `Date` value is modelled
as a real number of minutes counted from a fixed epoch.  The timezone
resolver (`Utilities.formatDate(date, tz, "Z")`) is modelled by the true UTC
offset of the zone in minutes together with the format-then-parse round trip
that the source performs on it.
-/

namespace VedicCalendar

open Real

/-! ## Calendar model (the host `Date` object) -/

/-- Proleptic-Gregorian leap-year test, as implemented by the JavaScript
`Date` host object. -/
def isLeapYear (y : ℤ) : Bool :=
  (y % 4 == 0 && y % 100 != 0) || (y % 400 == 0)

/-- Length of month `m` (1-based) in a (non-)leap year. -/
def monthLength (leap : Bool) (m : ℕ) : ℕ :=
  match m with
  | 1 => 31
  | 2 => if leap then 29 else 28
  | 3 => 31
  | 4 => 30
  | 5 => 31
  | 6 => 30
  | 7 => 31
  | 8 => 31
  | 9 => 30
  | 10 => 31
  | 11 => 30
  | 12 => 31
  | _ => 0

/-- Number of days strictly before month `m` (1-based) in a (non-)leap year. -/
def daysBeforeMonth (leap : Bool) (m : ℕ) : ℕ :=
  match m with
  | 1 => 0
  | 2 => 31
  | 3 => if leap then 60 else 59
  | 4 => if leap then 91 else 90
  | 5 => if leap then 121 else 120
  | 6 => if leap then 152 else 151
  | 7 => if leap then 182 else 181
  | 8 => if leap then 213 else 212
  | 9 => if leap then 244 else 243
  | 10 => if leap then 274 else 273
  | 11 => if leap then 305 else 304
  | 12 => if leap then 335 else 334
  | _ => 0

/-- Days from the epoch (1 January of year 1) to 1 January of year `y`,
in the proleptic Gregorian calendar. -/
def daysBeforeYear (y : ℤ) : ℤ :=
  365 * (y - 1) + (y - 1) / 4 - (y - 1) / 100 + (y - 1) / 400

/-- Epoch day number of the civil date (y, m, d). -/
def dayNumber (y : ℤ) (m d : ℕ) : ℤ :=
  daysBeforeYear y + (daysBeforeMonth (isLeapYear y) m : ℤ) + ((d : ℤ) - 1)

/-- A JavaScript `Date` value: a civil date plus a time of day
(minutes since local midnight; the host stores milliseconds, so the
component is real-valued). -/
structure JsDate where
  year : ℤ
  month : ℕ
  day : ℕ
  minutesOfDay : ℝ

/-- The numeric value of a `Date` (milliseconds), with uniform
86 400 000-ms days.  Subtraction of two `Date`s in the source is
subtraction of these values. -/
noncomputable def jsDateMs (d : JsDate) : ℝ :=
  (dayNumber d.year d.month d.day : ℝ) * 86400000 + d.minutesOfDay * 60000

/-- A date is valid when its fields denote an actual calendar day
(and its time of day is a real time of day). -/
def ValidDate (d : JsDate) : Prop :=
  1 ≤ d.year ∧ 1 ≤ d.month ∧ d.month ≤ 12 ∧
    1 ≤ d.day ∧ d.day ≤ monthLength (isLeapYear d.year) d.month ∧
    0 ≤ d.minutesOfDay ∧ d.minutesOfDay < 1440

/-- Day of year as the source computes it:
`startOfYear = new Date(year, 0, 0)` normalizes to 31 December of the
previous year at midnight, and
`dayOfYear = Math.floor((date - startOfYear) / 86400000)`. -/
noncomputable def dayOfYear (d : JsDate) : ℤ :=
  ⌊(jsDateMs d - jsDateMs ⟨d.year - 1, 12, 31, 0⟩) / 86400000⌋

/-- Follows the spec's words (refinement target for C9, not read off the
source): the 1-based ordinal day of (y, m, d) within year y. -/
def ordinalDayOfYear (y : ℤ) (m d : ℕ) : ℤ :=
  (daysBeforeMonth (isLeapYear y) m : ℤ) + d

/-! ## Solar position core (`getSunTimes`) -/

/-- Fractional-year angle: `gamma = 2π/365 * (dayOfYear - 1)`. -/
noncomputable def gamma (dayOfYear : ℤ) : ℝ :=
  2 * π / 365 * ((dayOfYear : ℝ) - 1)

/-- Equation of time in minutes (degree-2 Fourier series of the source). -/
noncomputable def eqTime (g : ℝ) : ℝ :=
  229.18 * (0.000075 + 0.001868 * cos g - 0.032077 * sin g
    - 0.014615 * cos (2 * g) - 0.040849 * sin (2 * g))

/-- Solar declination in radians (degree-3 Fourier series of the source). -/
noncomputable def decl (g : ℝ) : ℝ :=
  0.006918 - 0.399912 * cos g + 0.070257 * sin g
    - 0.006758 * cos (2 * g) + 0.000907 * sin (2 * g)
    - 0.002697 * cos (3 * g) + 0.00148 * sin (3 * g)

/-- The source obtains the UTC offset by formatting the date with pattern
"Z" (RFC-822 style: a sign followed by two hour digits and two minute
digits, e.g. "+0300" or "-0330") and then computing
`parseInt(tzString.slice(0, 3)) * 60 + parseInt(tzString.slice(3))`.
For a true offset of `off` minutes this format-then-parse round trip
yields the value below: the sign is applied to the hour part only. -/
def tzOffsetMinutes (off : ℤ) : ℤ :=
  if off < 0 then -((-off) / 60) * 60 + (-off) % 60 else off

/-- A resolvable timezone has a true UTC offset in the range spanned by
the IANA database. -/
def ValidOffset (off : ℤ) : Prop := -720 ≤ off ∧ off ≤ 840

/-- Geographic validity of a location per the spec. -/
def ValidLocation (lat lng : ℝ) : Prop :=
  -90 ≤ lat ∧ lat ≤ 90 ∧ -180 ≤ lng ∧ lng ≤ 180

/-- Hour-angle cosine before clamping:
`cos(90.833°) / (cos lat * cos decl) - tan lat * tan decl`
with `lat` converted to radians. -/
noncomputable def cosH (lat dc : ℝ) : ℝ :=
  cos (90.833 * (π / 180)) / (cos (lat * (π / 180)) * cos dc)
    - tan (lat * (π / 180)) * tan dc

/-- The two sequential `if` statements of the source that limit the
hour-angle cosine to [-1, 1]. -/
noncomputable def clampCos (x : ℝ) : ℝ :=
  if x > 1 then 1 else if x < -1 then -1 else x

/-- Solar noon in minutes from local midnight:
`720 - 4 * lng - eqTime + tzOffsetMinutes`. -/
noncomputable def solarNoonMinutes (date : JsDate) (lng : ℝ) (off : ℤ) : ℝ :=
  720 - 4 * lng - eqTime (gamma (dayOfYear date)) + (tzOffsetMinutes off : ℝ)

/-- Hour-angle half-day length in minutes:
`Math.acos(clamped) * 180 / Math.PI * 4`. -/
noncomputable def haMinutes (date : JsDate) (lat : ℝ) : ℝ :=
  Real.arccos (clampCos (cosH lat (decl (gamma (dayOfYear date))))) * 180 / π * 4

/-- Result record of `getSunTimes`: the three events in minutes from the
start of the local day. -/
structure SunTimes where
  sunrise : ℝ
  solarNoon : ℝ
  sunset : ℝ

/-- The `getSunTimes` function of the source. -/
noncomputable def getSunTimes (date : JsDate) (lat lng : ℝ) (off : ℤ) : SunTimes :=
  ⟨solarNoonMinutes date lng off - haMinutes date lat,
   solarNoonMinutes date lng off,
   solarNoonMinutes date lng off + haMinutes date lat⟩

/-! ## Conversion to wall-clock timestamps (`minutesToDate`) -/

/-- JavaScript number-to-integer truncation (toward zero). -/
noncomputable def jsTrunc (x : ℝ) : ℤ :=
  if 0 ≤ x then ⌊x⌋ else ⌈x⌉

/-- The JavaScript `%` operator on numbers: remainder of truncated
division, carrying the sign of the dividend. -/
noncomputable def jsRem (x y : ℝ) : ℝ :=
  x - y * (jsTrunc (x / y) : ℝ)

/-- Local midnight of a date, as a timestamp in minutes from the epoch. -/
noncomputable def midnightMinutes (d : JsDate) : ℝ :=
  (dayNumber d.year d.month d.day : ℝ) * 1440

/-- The `minutesToDate` function of the source:
`date.setHours(Math.floor(minutes / 60), Math.floor(minutes % 60), 0, 0)`.
`setHours` keeps the calendar date of the base, replaces the time of day
with `hours * 60 + mins` minutes (normalizing across day boundaries), and
zeroes the seconds and milliseconds.  The produced `Date` is therefore the
timestamp below, in minutes from the epoch. -/
noncomputable def minutesToDate (baseDate : JsDate) (minutes : ℝ) : ℝ :=
  midnightMinutes baseDate + 60 * (⌊minutes / 60⌋ : ℝ) + (⌊jsRem minutes 60⌋ : ℝ)

/-- Result record of `getSunTimesAsDate`: the three events as wall-clock
timestamps (minutes from the epoch). -/
structure SunDates where
  sunrise : ℝ
  noon : ℝ
  sunset : ℝ

/-- The `getSunTimesAsDate` function of the source. -/
noncomputable def getSunTimesAsDate (date : JsDate) (lat lng : ℝ) (off : ℤ) : SunDates :=
  ⟨minutesToDate date (getSunTimes date lat lng off).sunrise,
   minutesToDate date (getSunTimes date lat lng off).solarNoon,
   minutesToDate date (getSunTimes date lat lng off).sunset⟩

/-! ## Vedic period derivation (`calculateVedicTimes`) -/

/-- The three tunable minute constants of the source
(`BRAHMA_MUHURTA_MINUTES_BEFORE_SUNRISE`, `BRAHMA_MUHURTA_DURATION_MINUTES`,
`SANDHYA_DURATION_MINUTES`). -/
structure Config where
  minutesBeforeSunriseForDawnPeriod : ℕ
  dawnPeriodDurationMinutes : ℕ
  sandhyaHalfWidthMinutes : ℕ

/-- The constant values of the source: 96, 48, 24. -/
def defaultConfig : Config := ⟨96, 48, 24⟩

/-- One derived time window (`end` is a reserved word, so the field is
named `stop`). -/
structure Window where
  start : ℝ
  stop : ℝ

/-- Result record of `calculateVedicTimes`: the four windows, in the
insertion order of the source. -/
structure VedicTimes where
  brahmaMuhurta : Window
  morningSandhya : Window
  noonSandhya : Window
  eveningSandhya : Window

/-- The `calculateVedicTimes` function of the source.  Each
`setMinutes(getMinutes() ± k)` call shifts a copy of the given timestamp
by `k` whole minutes. -/
noncomputable def calculateVedicTimes (cfg : Config) (sunTimes : SunDates) : VedicTimes :=
  let brahmaMuhurtaStart := sunTimes.sunrise - (cfg.minutesBeforeSunriseForDawnPeriod : ℝ)
  let brahmaMuhurtaEnd := brahmaMuhurtaStart + (cfg.dawnPeriodDurationMinutes : ℝ)
  let morningSandhyaStart := sunTimes.sunrise - (cfg.sandhyaHalfWidthMinutes : ℝ)
  let morningSandhyaEnd := sunTimes.sunrise + (cfg.sandhyaHalfWidthMinutes : ℝ)
  let noonSandhyaStart := sunTimes.noon - (cfg.sandhyaHalfWidthMinutes : ℝ)
  let noonSandhyaEnd := noonSandhyaStart + (cfg.sandhyaHalfWidthMinutes : ℝ) * 2
  let eveningSandhyaStart := sunTimes.sunset - (cfg.sandhyaHalfWidthMinutes : ℝ)
  let eveningSandhyaEnd := sunTimes.sunset + (cfg.sandhyaHalfWidthMinutes : ℝ)
  ⟨⟨brahmaMuhurtaStart, brahmaMuhurtaEnd⟩,
   ⟨morningSandhyaStart, morningSandhyaEnd⟩,
   ⟨noonSandhyaStart, noonSandhyaEnd⟩,
   ⟨eveningSandhyaStart, eveningSandhyaEnd⟩⟩

/-- The full pipeline (the spec's `computeDailyVedicWindows`): the solar
calculator followed by the period deriver. -/
noncomputable def computeDailyVedicWindows (date : JsDate) (lat lng : ℝ) (off : ℤ)
    (cfg : Config) : VedicTimes :=
  calculateVedicTimes cfg (getSunTimesAsDate date lat lng off)

/-- A timestamp lying exactly on a whole minute. -/
def WholeMinute (t : ℝ) : Prop := ∃ k : ℤ, t = (k : ℝ)

/-! ## Helper lemmas: calendar arithmetic -/

lemma daysBeforeYear_succ (y : ℤ) :
    daysBeforeYear (y + 1) - daysBeforeYear y = if isLeapYear y then 366 else 365 := by
  have hiff : isLeapYear y = true ↔ ((y % 4 = 0 ∧ ¬y % 100 = 0) ∨ y % 400 = 0) := by
    simp [isLeapYear]
  unfold daysBeforeYear
  by_cases hL : isLeapYear y = true
  · rw [hL, if_pos rfl]
    rcases hiff.mp hL with ⟨h4, h100⟩ | h400
    · omega
    · omega
  · rw [Bool.not_eq_true] at hL
    rw [hL]
    simp only [Bool.false_eq_true, if_false]
    have h : ¬((y % 4 = 0 ∧ ¬y % 100 = 0) ∨ y % 400 = 0) := by
      intro hc
      have := hiff.mpr hc
      rw [hL] at this
      exact Bool.false_ne_true this
    push_neg at h
    obtain ⟨h1, h2⟩ := h
    by_cases h4 : y % 4 = 0
    · have h100 := h1 h4
      omega
    · omega

/-- The day-number difference that `dayOfYear` floors is exactly the
ordinal day within the year. -/
lemma dayNumber_sub_dec31 (y : ℤ) (m d : ℕ) :
    dayNumber y m d - dayNumber (y - 1) 12 31 = ordinalDayOfYear y m d := by
  have hsucc := daysBeforeYear_succ (y - 1)
  rw [sub_add_cancel] at hsucc
  unfold dayNumber ordinalDayOfYear
  by_cases hL : isLeapYear (y - 1) = true
  · rw [hL] at hsucc ⊢
    rw [if_pos rfl] at hsucc
    have h12 : ((daysBeforeMonth true 12 : ℕ) : ℤ) = 335 := by norm_num [daysBeforeMonth]
    omega
  · rw [Bool.not_eq_true] at hL
    rw [hL] at hsucc ⊢
    simp only [Bool.false_eq_true, if_false] at hsucc
    have h12 : ((daysBeforeMonth false 12 : ℕ) : ℤ) = 334 := by norm_num [daysBeforeMonth]
    omega

lemma dayOfYear_eq_ordinal (dt : JsDate) (h : ValidDate dt) :
    dayOfYear dt = ordinalDayOfYear dt.year dt.month dt.day := by
  obtain ⟨hy, hm1, hm2, hd1, hd2, ht0, ht1⟩ := h
  have hN := dayNumber_sub_dec31 dt.year dt.month dt.day
  unfold dayOfYear
  have hdiff : (jsDateMs dt - jsDateMs ⟨dt.year - 1, 12, 31, 0⟩) / 86400000 =
      ((dayNumber dt.year dt.month dt.day - dayNumber (dt.year - 1) 12 31 : ℤ) : ℝ)
        + dt.minutesOfDay / 1440 := by
    unfold jsDateMs
    push_cast
    ring
  rw [hdiff, hN, Int.floor_int_add]
  have hfr : ⌊dt.minutesOfDay / 1440⌋ = 0 := by
    rw [Int.floor_eq_zero_iff, Set.mem_Ico]
    constructor
    · positivity
    · rw [div_lt_one (by norm_num : (0 : ℝ) < 1440)]
      linarith
  omega

/-! ## Helper lemmas: `minutesToDate` -/

lemma jsTrunc_of_nonneg {x : ℝ} (h : 0 ≤ x) : jsTrunc x = ⌊x⌋ := by
  simp [jsTrunc, h]

lemma jsTrunc_of_neg {x : ℝ} (h : x < 0) : jsTrunc x = ⌈x⌉ := by
  simp [jsTrunc, not_le.2 h]

/-- On nonnegative inputs `minutesToDate` is midnight plus the floor of
the minute value. -/
lemma minutesToDate_of_nonneg (d : JsDate) {m : ℝ} (h : 0 ≤ m) :
    minutesToDate d m = midnightMinutes d + (⌊m⌋ : ℝ) := by
  unfold minutesToDate jsRem
  rw [jsTrunc_of_nonneg (by positivity)]
  have : (⌊m - 60 * (⌊m / 60⌋ : ℝ)⌋ : ℤ) = ⌊m⌋ - 60 * ⌊m / 60⌋ := by
    rw [show m - 60 * (⌊m / 60⌋ : ℝ) = m - ((60 * ⌊m / 60⌋ : ℤ) : ℝ) by push_cast; ring,
      Int.floor_sub_int]
  rw [this]
  push_cast
  ring

/-- On a negative input that is an exact multiple of 60, `minutesToDate`
is midnight plus the value. -/
lemma minutesToDate_of_neg_exact (d : JsDate) {m : ℝ} (hm : m < 0)
    (hr : jsRem m 60 = 0) : minutesToDate d m = midnightMinutes d + m := by
  have hq : m / 60 < 0 := div_neg_of_neg_of_pos hm (by norm_num)
  have htr : jsTrunc (m / 60) = ⌈m / 60⌉ := jsTrunc_of_neg hq
  unfold jsRem at hr
  rw [htr] at hr
  have hmval : m = 60 * (⌈m / 60⌉ : ℝ) := by linarith
  have hint : m / 60 = ((⌈m / 60⌉ : ℤ) : ℝ) := by
    rw [hmval]; field_simp
  have hfl : ⌊m / 60⌋ = ⌈m / 60⌉ := by
    rw [hint, Int.floor_intCast, Int.ceil_intCast]
  unfold minutesToDate jsRem
  rw [htr, hfl, ← hmval, sub_self, Int.floor_zero]
  push_cast
  linarith

/-- On a negative input that is not an exact multiple of 60,
`minutesToDate` is midnight plus the floor of the value minus a whole
extra hour: `Math.floor` rounds down while the JavaScript `%` operator
produces a negative remainder, and the two offsets do not cancel. -/
lemma minutesToDate_of_neg_inexact (d : JsDate) {m : ℝ} (hm : m < 0)
    (hr : jsRem m 60 ≠ 0) :
    minutesToDate d m = midnightMinutes d + (⌊m⌋ : ℝ) - 60 := by
  have hq : m / 60 < 0 := div_neg_of_neg_of_pos hm (by norm_num)
  have htr : jsTrunc (m / 60) = ⌈m / 60⌉ := jsTrunc_of_neg hq
  have hne2 : (⌈m / 60⌉ : ℤ) ≠ ⌊m / 60⌋ := by
    intro heq
    apply hr
    have h1 : ((⌊m / 60⌋ : ℤ) : ℝ) ≤ m / 60 := Int.floor_le _
    have h2 : m / 60 ≤ ((⌈m / 60⌉ : ℤ) : ℝ) := Int.le_ceil _
    rw [heq] at h2
    have hint : m / 60 = ((⌊m / 60⌋ : ℤ) : ℝ) := le_antisymm h2 h1
    unfold jsRem
    rw [htr, heq, ← hint]
    field_simp
  have hceil : ⌈m / 60⌉ = ⌊m / 60⌋ + 1 := by
    have h1 : (⌈m / 60⌉ : ℤ) ≤ ⌊m / 60⌋ + 1 := Int.ceil_le_floor_add_one _
    have h2 : (⌊m / 60⌋ : ℤ) ≤ ⌈m / 60⌉ := Int.floor_le_ceil _
    omega
  have hfr : ⌊m - 60 * ((⌈m / 60⌉ : ℤ) : ℝ)⌋ = ⌊m⌋ - 60 * ⌊m / 60⌋ - 60 := by
    rw [show m - 60 * ((⌈m / 60⌉ : ℤ) : ℝ) = m - ((60 * ⌊m / 60⌋ + 60 : ℤ) : ℝ) by
      rw [hceil]; push_cast; ring, Int.floor_sub_int]
    ring
  unfold minutesToDate jsRem
  rw [htr, hfr]
  push_cast
  ring

/-- The conversion is monotone on nonnegative minute values. -/
lemma minutesToDate_mono_of_nonneg (d : JsDate) {m1 m2 : ℝ} (h0 : 0 ≤ m1) (h : m1 ≤ m2) :
    minutesToDate d m1 ≤ minutesToDate d m2 := by
  rw [minutesToDate_of_nonneg d h0, minutesToDate_of_nonneg d (le_trans h0 h)]
  have hfl : ⌊m1⌋ ≤ ⌊m2⌋ := Int.floor_le_floor h
  have : ((⌊m1⌋ : ℤ) : ℝ) ≤ ((⌊m2⌋ : ℤ) : ℝ) := Int.cast_le.mpr hfl
  linarith

lemma minutesToDate_wholeMinute (d : JsDate) (m : ℝ) : WholeMinute (minutesToDate d m) :=
  ⟨dayNumber d.year d.month d.day * 1440 + 60 * ⌊m / 60⌋ + ⌊jsRem m 60⌋, by
    unfold minutesToDate midnightMinutes
    push_cast
    ring⟩

lemma WholeMinute.add_nat {t : ℝ} (h : WholeMinute t) (n : ℕ) :
    WholeMinute (t + (n : ℝ)) := by
  obtain ⟨k, hk⟩ := h
  exact ⟨k + n, by rw [hk]; push_cast; ring⟩

lemma WholeMinute.sub_nat {t : ℝ} (h : WholeMinute t) (n : ℕ) :
    WholeMinute (t - (n : ℝ)) := by
  obtain ⟨k, hk⟩ := h
  exact ⟨k - n, by rw [hk]; push_cast; ring⟩

lemma WholeMinute.add_nat_mul_two {t : ℝ} (h : WholeMinute t) (n : ℕ) :
    WholeMinute (t + (n : ℝ) * 2) := by
  obtain ⟨k, hk⟩ := h
  exact ⟨k + 2 * n, by rw [hk]; push_cast; ring⟩

/-! ## Helper lemmas: timezone parse and hour angle -/

/-- Characterization of the format-then-parse timezone offset: it equals
the true offset, plus an error of twice the residual minutes when the
offset is negative. -/
lemma tzOffsetMinutes_eq (off : ℤ) :
    tzOffsetMinutes off = off + (if off < 0 then 2 * ((-off) % 60) else 0) := by
  unfold tzOffsetMinutes
  by_cases h : off < 0
  · rw [if_pos h, if_pos h]
    omega
  · rw [if_neg h, if_neg h]
    omega

lemma clampCos_le_one (x : ℝ) : clampCos x ≤ 1 := by
  unfold clampCos
  split_ifs with h1 h2 <;> linarith

lemma neg_one_le_clampCos (x : ℝ) : -1 ≤ clampCos x := by
  unfold clampCos
  split_ifs with h1 h2 <;> linarith

lemma clampCos_of_one_le {x : ℝ} (h : 1 ≤ x) : clampCos x = 1 := by
  unfold clampCos
  split_ifs with h1 h2 <;> linarith

lemma clampCos_of_mem {x : ℝ} (h1 : -1 ≤ x) (h2 : x ≤ 1) : clampCos x = x := by
  unfold clampCos
  split_ifs with ha hb <;> linarith

lemma haMinutes_nonneg (date : JsDate) (lat : ℝ) : 0 ≤ haMinutes date lat := by
  unfold haMinutes
  have h1 : (0 : ℝ) ≤ Real.arccos (clampCos (cosH lat (decl (gamma (dayOfYear date))))) :=
    Real.arccos_nonneg _
  have h2 : (0 : ℝ) < π := Real.pi_pos
  have h3 : (0 : ℝ) ≤
      Real.arccos (clampCos (cosH lat (decl (gamma (dayOfYear date))))) * 180 / π :=
    div_nonneg (by linarith) (le_of_lt h2)
  linarith

lemma haMinutes_le_720 (date : JsDate) (lat : ℝ) : haMinutes date lat ≤ 720 := by
  unfold haMinutes
  have h1 := Real.arccos_le_pi (clampCos (cosH lat (decl (gamma (dayOfYear date)))))
  have h2 : (0 : ℝ) < π := Real.pi_pos
  rw [show Real.arccos (clampCos (cosH lat (decl (gamma (dayOfYear date))))) * 180 / π * 4
      = Real.arccos (clampCos (cosH lat (decl (gamma (dayOfYear date))))) * 720 / π by ring]
  rw [div_le_iff₀ h2]
  nlinarith

/-! ## Claim C9 -/

/-- C9: for every valid calendar date, the first step of the algorithm
computes `dayOfYear` equal to the 1-based ordinal day of the date within
its year — 1 for 1 January, and 365 or 366 for 31 December according to
leap year. -/
theorem c9_dayOfYear_is_ordinal (dt : JsDate) (h : ValidDate dt) :
    dayOfYear dt = ordinalDayOfYear dt.year dt.month dt.day ∧
    ordinalDayOfYear dt.year 1 1 = 1 ∧
    ordinalDayOfYear dt.year 12 31 = (if isLeapYear dt.year then 366 else 365) := by
  refine ⟨dayOfYear_eq_ordinal dt h, ?_, ?_⟩
  · simp [ordinalDayOfYear, daysBeforeMonth]
  · unfold ordinalDayOfYear
    by_cases hL : isLeapYear dt.year = true
    · rw [hL]
      norm_num [daysBeforeMonth]
    · rw [Bool.not_eq_true] at hL
      rw [hL]
      norm_num [daysBeforeMonth]

/-- Witness for C9 at 5 March 2024 (a leap year): day of year 65. -/
theorem c9_dayOfYear_is_ordinal_witness :
    ValidDate ⟨2024, 3, 5, 0⟩ ∧ dayOfYear ⟨2024, 3, 5, 0⟩ = 65 := by
  have hleap : isLeapYear 2024 = true := by decide
  have hv : ValidDate ⟨2024, 3, 5, 0⟩ := by
    refine ⟨by norm_num, by norm_num, by norm_num, by norm_num, ?_, by norm_num, by norm_num⟩
    show 5 ≤ monthLength (isLeapYear 2024) 3
    rw [hleap]
    norm_num [monthLength]
  refine ⟨hv, ?_⟩
  rw [(c9_dayOfYear_is_ordinal ⟨2024, 3, 5, 0⟩ hv).1]
  show ordinalDayOfYear 2024 3 5 = 65
  unfold ordinalDayOfYear
  rw [hleap]
  norm_num [daysBeforeMonth]

/-! ## Claim C2 -/

/-- C2 counterexample: at minutes = −61 the conversion yields local
midnight minus 121 minutes (22:59 on the previous day), not midnight
minus 61 minutes (truncation toward zero) as the claim requires:
`Math.floor(-61/60) = -2` hours but the JavaScript `%` gives the
negative remainder −1, so the two components do not recombine to −61. -/
theorem c2_counterexample_neg_minutes :
    minutesToDate ⟨2024, 1, 1, 0⟩ (-61) = midnightMinutes ⟨2024, 1, 1, 0⟩ - 121 ∧
    midnightMinutes ⟨2024, 1, 1, 0⟩ - 121 ≠ midnightMinutes ⟨2024, 1, 1, 0⟩ + (-61) := by
  constructor
  · have hr : jsRem (-61 : ℝ) 60 ≠ 0 := by
      unfold jsRem
      rw [jsTrunc_of_neg (by norm_num : (-61 : ℝ) / 60 < 0)]
      rw [show ⌈(-61 : ℝ) / 60⌉ = -1 from by
        rw [Int.ceil_eq_iff]
        norm_num]
      norm_num
    rw [minutesToDate_of_neg_inexact _ (by norm_num) hr,
      show ⌊(-61 : ℝ)⌋ = -61 from by norm_num]
    push_cast
    ring
  · intro h
    linarith

/-- C2 (amended): for nonnegative minute values the conversion is local
midnight plus the floor of the value (truncation toward zero there, with
day roll-over upward); but for negative values it is midnight plus the
value itself when the value is an exact multiple of 60, and otherwise
midnight plus the floor of the value minus one extra hour — not
truncation toward zero.  Values outside [0, 1440) still land on an
adjacent calendar day. -/
theorem c2_amended_conversion (d : JsDate) (m : ℝ) :
    (0 ≤ m → minutesToDate d m = midnightMinutes d + (⌊m⌋ : ℝ)) ∧
    (m < 0 → jsRem m 60 = 0 → minutesToDate d m = midnightMinutes d + m) ∧
    (m < 0 → jsRem m 60 ≠ 0 → minutesToDate d m = midnightMinutes d + (⌊m⌋ : ℝ) - 60) ∧
    (1440 ≤ m → midnightMinutes d + 1440 ≤ minutesToDate d m) ∧
    (m < 0 → minutesToDate d m < midnightMinutes d) := by
  refine ⟨fun h0 => minutesToDate_of_nonneg d h0,
    fun hm hr => minutesToDate_of_neg_exact d hm hr,
    fun hm hr => minutesToDate_of_neg_inexact d hm hr, ?_, ?_⟩
  · intro h14
    rw [minutesToDate_of_nonneg d (by linarith)]
    have : (1440 : ℤ) ≤ ⌊m⌋ := Int.le_floor.mpr (by exact_mod_cast h14)
    have : ((1440 : ℤ) : ℝ) ≤ ((⌊m⌋ : ℤ) : ℝ) := Int.cast_le.mpr this
    push_cast at this
    linarith
  · intro hm
    by_cases hr : jsRem m 60 = 0
    · rw [minutesToDate_of_neg_exact d hm hr]
      linarith
    · rw [minutesToDate_of_neg_inexact d hm hr]
      have : ⌊m⌋ < 0 := Int.floor_lt.mpr (by exact_mod_cast hm)
      have : ((⌊m⌋ : ℤ) : ℝ) ≤ 0 := by exact_mod_cast Int.le_of_lt this
      linarith

/-- Witness for C2 (amended) at minutes = 90.5: conversion gives
midnight + 90 minutes. -/
theorem c2_amended_conversion_witness :
    minutesToDate ⟨2024, 1, 1, 0⟩ 90.5 = midnightMinutes ⟨2024, 1, 1, 0⟩ + 90 := by
  have h := (c2_amended_conversion ⟨2024, 1, 1, 0⟩ 90.5).1 (by norm_num)
  rw [h, show ⌊(90.5 : ℝ)⌋ = 90 from by
    rw [Int.floor_eq_iff]
    norm_num]
  norm_num

/-! ## Claim C5 -/

/-- C5: for every input and every configuration, each of the four
windows satisfies start ≤ end; the pre-dawn window's duration is exactly
`dawnPeriodDurationMinutes` (whatever the sandhya half-width is), and
the morning, midday and evening sandhya windows each have duration
exactly `2 * sandhyaHalfWidthMinutes`. -/
theorem c5_window_durations (st : SunDates) (cfg : Config) :
    ((calculateVedicTimes cfg st).brahmaMuhurta.start ≤
        (calculateVedicTimes cfg st).brahmaMuhurta.stop ∧
      (calculateVedicTimes cfg st).brahmaMuhurta.stop -
          (calculateVedicTimes cfg st).brahmaMuhurta.start =
        (cfg.dawnPeriodDurationMinutes : ℝ)) ∧
    ((calculateVedicTimes cfg st).morningSandhya.start ≤
        (calculateVedicTimes cfg st).morningSandhya.stop ∧
      (calculateVedicTimes cfg st).morningSandhya.stop -
          (calculateVedicTimes cfg st).morningSandhya.start =
        2 * (cfg.sandhyaHalfWidthMinutes : ℝ)) ∧
    ((calculateVedicTimes cfg st).noonSandhya.start ≤
        (calculateVedicTimes cfg st).noonSandhya.stop ∧
      (calculateVedicTimes cfg st).noonSandhya.stop -
          (calculateVedicTimes cfg st).noonSandhya.start =
        2 * (cfg.sandhyaHalfWidthMinutes : ℝ)) ∧
    ((calculateVedicTimes cfg st).eveningSandhya.start ≤
        (calculateVedicTimes cfg st).eveningSandhya.stop ∧
      (calculateVedicTimes cfg st).eveningSandhya.stop -
          (calculateVedicTimes cfg st).eveningSandhya.start =
        2 * (cfg.sandhyaHalfWidthMinutes : ℝ)) := by
  have hb : (0 : ℝ) ≤ (cfg.dawnPeriodDurationMinutes : ℝ) := Nat.cast_nonneg _
  have hs : (0 : ℝ) ≤ (cfg.sandhyaHalfWidthMinutes : ℝ) := Nat.cast_nonneg _
  simp only [calculateVedicTimes]
  refine ⟨⟨by linarith, by ring⟩, ⟨by linarith, by ring⟩,
    ⟨by linarith, by ring⟩, ⟨by linarith, by ring⟩⟩

/-! ## Claim C7 -/

/-- C7: the midday sandhya window starts at solar noon minus the
half-width, its end is computed from the start plus twice the
half-width, and that end coincides with solar noon plus the half-width
(the derivation through the start is equivalent to the symmetric
formula). -/
theorem c7_noon_sandhya_symmetric (st : SunDates) (cfg : Config) :
    (calculateVedicTimes cfg st).noonSandhya.start =
      st.noon - (cfg.sandhyaHalfWidthMinutes : ℝ) ∧
    (calculateVedicTimes cfg st).noonSandhya.stop =
      (calculateVedicTimes cfg st).noonSandhya.start +
        2 * (cfg.sandhyaHalfWidthMinutes : ℝ) ∧
    (calculateVedicTimes cfg st).noonSandhya.stop =
      st.noon + (cfg.sandhyaHalfWidthMinutes : ℝ) := by
  refine ⟨?_, ?_, ?_⟩ <;> simp only [calculateVedicTimes] <;> ring

/-! ## Claim C8 -/

/-- C8: the full pipeline is a deterministic pure function of its model
inputs (date, location, resolved offset, configuration): two invocations
with identical inputs are identical, and the pipeline is exactly the
composition of the solar calculator with the period deriver. -/
theorem c8_pipeline_deterministic (date : JsDate) (lat lng : ℝ) (off : ℤ) (cfg : Config) :
    computeDailyVedicWindows date lat lng off cfg =
      computeDailyVedicWindows date lat lng off cfg ∧
    computeDailyVedicWindows date lat lng off cfg =
      calculateVedicTimes cfg (getSunTimesAsDate date lat lng off) :=
  ⟨rfl, rfl⟩

/-! ## Claim C10 -/

/-- C10: every timestamp at the public interface — the three solar
instants (which are also the windows' anchors) and every window's start
and end — lies exactly on a whole minute. -/
theorem c10_all_whole_minutes (date : JsDate) (lat lng : ℝ) (off : ℤ) (cfg : Config) :
    WholeMinute (getSunTimesAsDate date lat lng off).sunrise ∧
    WholeMinute (getSunTimesAsDate date lat lng off).noon ∧
    WholeMinute (getSunTimesAsDate date lat lng off).sunset ∧
    WholeMinute (computeDailyVedicWindows date lat lng off cfg).brahmaMuhurta.start ∧
    WholeMinute (computeDailyVedicWindows date lat lng off cfg).brahmaMuhurta.stop ∧
    WholeMinute (computeDailyVedicWindows date lat lng off cfg).morningSandhya.start ∧
    WholeMinute (computeDailyVedicWindows date lat lng off cfg).morningSandhya.stop ∧
    WholeMinute (computeDailyVedicWindows date lat lng off cfg).noonSandhya.start ∧
    WholeMinute (computeDailyVedicWindows date lat lng off cfg).noonSandhya.stop ∧
    WholeMinute (computeDailyVedicWindows date lat lng off cfg).eveningSandhya.start ∧
    WholeMinute (computeDailyVedicWindows date lat lng off cfg).eveningSandhya.stop := by
  have h1 := minutesToDate_wholeMinute date (getSunTimes date lat lng off).sunrise
  have h2 := minutesToDate_wholeMinute date (getSunTimes date lat lng off).solarNoon
  have h3 := minutesToDate_wholeMinute date (getSunTimes date lat lng off).sunset
  simp only [computeDailyVedicWindows, calculateVedicTimes, getSunTimesAsDate]
  exact ⟨h1, h2, h3,
    h1.sub_nat _, (h1.sub_nat _).add_nat _,
    h1.sub_nat _, h1.add_nat _,
    h2.sub_nat _, (h2.sub_nat _).add_nat_mul_two _,
    h3.sub_nat _, h3.add_nat _⟩

/-! ## Claim C6 -/

/-- C6 counterexample: for the resolvable timezone at true offset −210
minutes (UTC−03:30, e.g. America/St_Johns), the source's
format-then-parse round trip yields −150, so the computed solar noon
differs from 720 − 4·lng − eqTime + utcOffsetMinutes with the true
offset −210. -/
theorem c6_counterexample_negative_half_hour_offset :
    ValidOffset (-210) ∧
    tzOffsetMinutes (-210) = -150 ∧
    (getSunTimes ⟨2024, 1, 1, 0⟩ 0 0 (-210)).solarNoon ≠
      720 - 4 * 0 - eqTime (gamma (dayOfYear ⟨2024, 1, 1, 0⟩)) + (-210) := by
  refine ⟨⟨by norm_num, by norm_num⟩, by decide, ?_⟩
  simp only [getSunTimes, solarNoonMinutes]
  rw [show tzOffsetMinutes (-210) = -150 from by decide]
  intro h
  push_cast at h
  linarith

/-- C6 (amended): for every input, the computed solar noon equals
720 − 4·lng − eqTime + parsedOffset, where parsedOffset is the true
offset plus a correction of 2·((−off) mod 60) for negative offsets; the
correction vanishes exactly when the offset is nonnegative or a whole
number of hours. -/
theorem c6_amended_solar_noon_formula (date : JsDate) (lat lng : ℝ) (off : ℤ) :
    (getSunTimes date lat lng off).solarNoon =
      720 - 4 * lng - eqTime (gamma (dayOfYear date)) +
        ((off + (if off < 0 then 2 * ((-off) % 60) else 0) : ℤ) : ℝ) := by
  simp only [getSunTimes, solarNoonMinutes]
  rw [tzOffsetMinutes_eq off]

/-! ## Claim C3 -/

/-- C3 counterexample: latitude 91 and longitude 200 are out of range,
yet the computation raises no error and returns a result whose solar
noon is the usual closed-form value: the source contains no validation
of latitude or longitude at all. -/
theorem c3_counterexample_no_validation :
    ¬ValidLocation 91 200 ∧
    (getSunTimes ⟨2024, 1, 1, 0⟩ 91 200 0).solarNoon =
      -80 - eqTime (gamma (dayOfYear ⟨2024, 1, 1, 0⟩)) := by
  constructor
  · intro h
    have h91 : (91 : ℝ) ≤ 90 := h.2.1
    norm_num at h91
  · simp only [getSunTimes, solarNoonMinutes]
    rw [show tzOffsetMinutes 0 = 0 from rfl]
    push_cast
    ring

/-- C3 (amended): the source performs no input validation: for every
out-of-range location it still returns a well-formed result from the
same formulas — minute-level sunrise ≤ noon ≤ sunset and the closed-form
solar noon — instead of failing with an InvalidLocation error. -/
theorem c3_amended_no_invalid_location_error (date : JsDate) (lat lng : ℝ) (off : ℤ)
    (h : ¬ValidLocation lat lng) :
    (getSunTimes date lat lng off).sunrise ≤ (getSunTimes date lat lng off).solarNoon ∧
    (getSunTimes date lat lng off).solarNoon ≤ (getSunTimes date lat lng off).sunset ∧
    (getSunTimes date lat lng off).solarNoon =
      720 - 4 * lng - eqTime (gamma (dayOfYear date)) + (tzOffsetMinutes off : ℝ) := by
  have hha := haMinutes_nonneg date lat
  refine ⟨?_, ?_, rfl⟩ <;> simp only [getSunTimes] <;> linarith

/-- Witness for C3 (amended) at the invalid location (91, 200). -/
theorem c3_amended_witness :
    ¬ValidLocation 91 200 ∧
    ((getSunTimes ⟨2024, 1, 1, 0⟩ 91 200 0).sunrise ≤
        (getSunTimes ⟨2024, 1, 1, 0⟩ 91 200 0).solarNoon ∧
      (getSunTimes ⟨2024, 1, 1, 0⟩ 91 200 0).solarNoon ≤
        (getSunTimes ⟨2024, 1, 1, 0⟩ 91 200 0).sunset ∧
      (getSunTimes ⟨2024, 1, 1, 0⟩ 91 200 0).solarNoon =
        720 - 4 * 200 - eqTime (gamma (dayOfYear ⟨2024, 1, 1, 0⟩)) +
          (tzOffsetMinutes 0 : ℝ)) := by
  have hnv : ¬ValidLocation 91 200 := by
    intro h
    have h91 : (91 : ℝ) ≤ 90 := h.2.1
    norm_num at h91
  exact ⟨hnv, c3_amended_no_invalid_location_error ⟨2024, 1, 1, 0⟩ 91 200 0 hnv⟩

/-! ## Claim C4 -/

/-- C4: for every valid input, including the polar latitudes ±90, the
hour-angle cosine is clamped to [−1, 1] before arccos; the hour angle is
therefore always a well-defined value in [0, 720] minutes, and when the
cosine reaches the clamped extreme 1 the sunrise and sunset degenerate
to solar noon itself instead of an error. -/
theorem c4_clamping_safe (date : JsDate) (lat lng : ℝ) (off : ℤ)
    (hdate : ValidDate date) (hloc : ValidLocation lat lng) :
    (-1 ≤ clampCos (cosH lat (decl (gamma (dayOfYear date)))) ∧
      clampCos (cosH lat (decl (gamma (dayOfYear date)))) ≤ 1) ∧
    (0 ≤ haMinutes date lat ∧ haMinutes date lat ≤ 720) ∧
    (1 ≤ cosH lat (decl (gamma (dayOfYear date))) →
      (getSunTimes date lat lng off).sunrise = (getSunTimes date lat lng off).solarNoon ∧
      (getSunTimes date lat lng off).sunset = (getSunTimes date lat lng off).solarNoon) := by
  refine ⟨⟨neg_one_le_clampCos _, clampCos_le_one _⟩,
    ⟨haMinutes_nonneg date lat, haMinutes_le_720 date lat⟩, ?_⟩
  intro hdeg
  have hzero : haMinutes date lat = 0 := by
    unfold haMinutes
    rw [clampCos_of_one_le hdeg, Real.arccos_one]
    ring
  simp only [getSunTimes, hzero]
  constructor <;> ring

/-- Witness for C4 at the equator on 1 January 2024. -/
theorem c4_clamping_safe_witness :
    ValidDate ⟨2024, 1, 1, 0⟩ ∧ ValidLocation 0 0 ∧
    (0 ≤ haMinutes ⟨2024, 1, 1, 0⟩ 0 ∧ haMinutes ⟨2024, 1, 1, 0⟩ 0 ≤ 720) := by
  have hleap : isLeapYear 2024 = true := by decide
  have hv : ValidDate ⟨2024, 1, 1, 0⟩ := by
    refine ⟨by norm_num, by norm_num, by norm_num, by norm_num, ?_, by norm_num, by norm_num⟩
    show 1 ≤ monthLength (isLeapYear 2024) 1
    rw [hleap]
    norm_num [monthLength]
  have hl : ValidLocation 0 0 := ⟨by norm_num, by norm_num, by norm_num, by norm_num⟩
  exact ⟨hv, hl, (c4_clamping_safe ⟨2024, 1, 1, 0⟩ 0 0 0 hv hl).2.1⟩

/-! ## Numeric bounds for the C1 counterexample -/

lemma sqrt_two_bounds : (1.414213 : ℝ) ≤ Real.sqrt 2 ∧ Real.sqrt 2 ≤ 1.414214 := by
  have hsq : Real.sqrt 2 ^ 2 = 2 := Real.sq_sqrt (by norm_num)
  have hnn : (0 : ℝ) ≤ Real.sqrt 2 := Real.sqrt_nonneg 2
  constructor <;> nlinarith

/-- Exact value of the latitude tangent at 67.5 degrees:
tan(3π/8) = 1 + √2. -/
lemma tan_latr_eq : tan ((67.5 : ℝ) * (π / 180)) = 1 + Real.sqrt 2 := by
  obtain ⟨hq1, hq2⟩ := sqrt_two_bounds
  have hsq2 : Real.sqrt 2 ^ 2 = 2 := Real.sq_sqrt (by norm_num)
  have hpos : (0 : ℝ) < 2 - Real.sqrt 2 := by linarith
  have key : Real.sqrt (2 + Real.sqrt 2) = (1 + Real.sqrt 2) * Real.sqrt (2 - Real.sqrt 2) := by
    have hrhs : ((1 + Real.sqrt 2) * Real.sqrt (2 - Real.sqrt 2)) ^ 2 = 2 + Real.sqrt 2 := by
      rw [mul_pow, Real.sq_sqrt (le_of_lt hpos)]
      nlinarith
    calc Real.sqrt (2 + Real.sqrt 2)
        = Real.sqrt (((1 + Real.sqrt 2) * Real.sqrt (2 - Real.sqrt 2)) ^ 2) := by rw [hrhs]
      _ = (1 + Real.sqrt 2) * Real.sqrt (2 - Real.sqrt 2) := Real.sqrt_sq (by positivity)
  have hs : sin ((67.5 : ℝ) * (π / 180)) = cos (π / 8) := by
    rw [show (67.5 : ℝ) * (π / 180) = π / 2 - π / 8 by ring, Real.sin_pi_div_two_sub]
  have hc : cos ((67.5 : ℝ) * (π / 180)) = sin (π / 8) := by
    rw [show (67.5 : ℝ) * (π / 180) = π / 2 - π / 8 by ring, Real.cos_pi_div_two_sub]
  have hne : Real.sqrt (2 - Real.sqrt 2) ≠ 0 := ne_of_gt (Real.sqrt_pos.mpr hpos)
  rw [Real.tan_eq_sin_div_cos, hs, hc, Real.cos_pi_div_eight, Real.sin_pi_div_eight, key]
  field_simp

/-- Exact value and numeric bounds for the latitude cosine at 67.5
degrees: cos(3π/8) = √(2 − √2)/2 ≈ 0.382683. -/
lemma cos_latr_bounds :
    (0.38268 : ℝ) ≤ cos ((67.5 : ℝ) * (π / 180)) ∧
      cos ((67.5 : ℝ) * (π / 180)) ≤ 0.382685 := by
  obtain ⟨hq1, hq2⟩ := sqrt_two_bounds
  have hval : cos ((67.5 : ℝ) * (π / 180)) = Real.sqrt (2 - Real.sqrt 2) / 2 := by
    rw [show (67.5 : ℝ) * (π / 180) = π / 2 - π / 8 by ring, Real.cos_pi_div_two_sub,
      Real.sin_pi_div_eight]
  have hpos : (0 : ℝ) ≤ 2 - Real.sqrt 2 := by linarith
  have hsq : Real.sqrt (2 - Real.sqrt 2) ^ 2 = 2 - Real.sqrt 2 := Real.sq_sqrt hpos
  have hnn : (0 : ℝ) ≤ Real.sqrt (2 - Real.sqrt 2) := Real.sqrt_nonneg _
  rw [hval]
  constructor
  · have h1 : (0.76536 : ℝ) ≤ Real.sqrt (2 - Real.sqrt 2) := by nlinarith
    linarith
  · have h2 : Real.sqrt (2 - Real.sqrt 2) ≤ 0.76537 := by nlinarith
    linarith

/-- Numeric bounds on the refraction constant cos(90.833°), via
cos(π/2 + x) = −sin x and the cubic lower bound for sin. -/
lemma refraction_cos_bounds :
    (-0.01454 : ℝ) ≤ cos ((90.833 : ℝ) * (π / 180)) ∧
      cos ((90.833 : ℝ) * (π / 180)) ≤ -0.01453 := by
  have hrw : (90.833 : ℝ) * (π / 180) = 0.833 * (π / 180) + π / 2 := by ring
  rw [hrw, Real.cos_add_pi_div_two]
  have hπ1 : (3.141592 : ℝ) < π := Real.pi_gt_d6
  have hπ2 : π < 3.141593 := Real.pi_lt_d6
  have hx1 : (0.0145385 : ℝ) < 0.833 * (π / 180) := by nlinarith
  have hx2 : (0.833 : ℝ) * (π / 180) < 0.0145386 := by nlinarith
  have hxpos : (0 : ℝ) < 0.833 * (π / 180) := by linarith
  have hs1 : sin (0.833 * (π / 180)) < 0.833 * (π / 180) := Real.sin_lt hxpos
  have hs2 : 0.833 * (π / 180) - (0.833 * (π / 180)) ^ 3 / 4 < sin (0.833 * (π / 180)) :=
    Real.sin_gt_sub_cube hxpos (by linarith)
  have hcube : (0.833 * (π / 180)) ^ 3 ≤ 0.0145386 ^ 3 :=
    pow_le_pow_left₀ (le_of_lt hxpos) (le_of_lt hx2) 3
  constructor
  · linarith
  · nlinarith

/-- Numeric bounds on sin(−0.402449) from the Taylor estimate. -/
lemma sin_decl_bounds :
    (-0.39296 : ℝ) ≤ sin (-0.402449 : ℝ) ∧ sin (-0.402449 : ℝ) ≤ -0.39021 := by
  have habs : |(-0.402449 : ℝ)| = 0.402449 := by
    rw [abs_of_nonpos (by norm_num)]
    norm_num
  have h := Real.sin_bound (show |(-0.402449 : ℝ)| ≤ 1 by rw [habs]; norm_num)
  rw [habs] at h
  obtain ⟨h1, h2⟩ := abs_le.mp h
  constructor <;> nlinarith

/-- Numeric bounds on cos(−0.402449) from the Taylor estimate. -/
lemma cos_decl_bounds :
    (0.91765 : ℝ) ≤ cos (-0.402449 : ℝ) ∧ cos (-0.402449 : ℝ) ≤ 0.92039 := by
  have habs : |(-0.402449 : ℝ)| = 0.402449 := by
    rw [abs_of_nonpos (by norm_num)]
    norm_num
  have h := Real.cos_bound (show |(-0.402449 : ℝ)| ≤ 1 by rw [habs]; norm_num)
  rw [habs] at h
  obtain ⟨h1, h2⟩ := abs_le.mp h
  constructor <;> nlinarith

/-- Numeric upper bound on cos(π/12) = (√6 + √2)/4 ≈ 0.965926. -/
lemma cos_pi_div_twelve_lt : cos (π / 12) < 0.966 := by
  have h12 : π / 12 = π / 3 - π / 4 := by ring
  rw [h12, Real.cos_sub, Real.cos_pi_div_three, Real.sin_pi_div_three,
    Real.cos_pi_div_four, Real.sin_pi_div_four]
  obtain ⟨hq1, hq2⟩ := sqrt_two_bounds
  have h3 : Real.sqrt 3 ≤ 1.7320509 := by
    have hsq : Real.sqrt 3 ^ 2 = 3 := Real.sq_sqrt (by norm_num)
    nlinarith [Real.sqrt_nonneg 3]
  have hprod : Real.sqrt 3 * Real.sqrt 2 ≤ 1.7320509 * 1.414214 :=
    mul_le_mul h3 hq2 (Real.sqrt_nonneg 2) (by norm_num)
  nlinarith [Real.sqrt_nonneg 3, Real.sqrt_nonneg 2]

/-- Interval evaluation of the hour-angle cosine expression. -/
lemma cosH_interval (A cL tL s c : ℝ)
    (hA1 : -0.01454 ≤ A) (hA2 : A ≤ -0.01453)
    (hcL1 : 0.38268 ≤ cL) (hcL2 : cL ≤ 0.382685)
    (htL1 : 2.414213 ≤ tL) (htL2 : tL ≤ 2.414214)
    (hs1 : -0.39296 ≤ s) (hs2 : s ≤ -0.39021)
    (hc1 : 0.91765 ≤ c) (hc2 : c ≤ 0.92039) :
    0.982 ≤ A / (cL * c) - tL * (s / c) ∧ A / (cL * c) - tL * (s / c) ≤ 0.993 := by
  have hcpos : (0 : ℝ) < c := by linarith
  have hcLpos : (0 : ℝ) < cL := by linarith
  have hD : (0 : ℝ) < cL * c := mul_pos hcLpos hcpos
  have hrw : A / (cL * c) - tL * (s / c) = (A - tL * s * cL) / (cL * c) := by
    field_simp
    ring
  have hP1a : (0.942050 : ℝ) ≤ tL * (-s) := by nlinarith
  have hP1b : tL * (-s) ≤ 0.948690 := by nlinarith
  have hP2a : (0.360503 : ℝ) ≤ tL * (-s) * cL := by nlinarith
  have hP2b : tL * (-s) * cL ≤ 0.363050 := by nlinarith
  have hNa : (0.345963 : ℝ) ≤ A - tL * s * cL := by nlinarith
  have hNb : A - tL * s * cL ≤ 0.348520 := by nlinarith
  have hDa : (0.351166 : ℝ) ≤ cL * c := by nlinarith
  have hDb : cL * c ≤ 0.352220 := by nlinarith
  rw [hrw]
  constructor
  · rw [le_div_iff₀ hD]
    linarith
  · rw [div_le_iff₀ hD]
    linarith

/-- Numeric bounds on the hour-angle cosine at latitude 67.5 and
declination −0.402449 rad: it lies strictly inside (cos(π/12), 1). -/
lemma cosH_polar_bounds :
    (0.982 : ℝ) ≤ cosH 67.5 (-0.402449) ∧ cosH 67.5 (-0.402449) ≤ 0.993 := by
  obtain ⟨hq1, hq2⟩ := sqrt_two_bounds
  have h := cosH_interval (cos ((90.833 : ℝ) * (π / 180)))
    (cos ((67.5 : ℝ) * (π / 180))) (1 + Real.sqrt 2)
    (sin (-0.402449 : ℝ)) (cos (-0.402449 : ℝ))
    refraction_cos_bounds.1 refraction_cos_bounds.2
    cos_latr_bounds.1 cos_latr_bounds.2
    (by linarith) (by linarith)
    sin_decl_bounds.1 sin_decl_bounds.2
    cos_decl_bounds.1 cos_decl_bounds.2
  unfold cosH
  rw [tan_latr_eq, Real.tan_eq_sin_div_cos]
  exact h

/-! ## The degenerate-polar concrete input for C1 -/

lemma validDate_jan1_2024 : ValidDate (⟨2024, 1, 1, 0⟩ : JsDate) := by
  have hleap : isLeapYear 2024 = true := by decide
  refine ⟨by norm_num, by norm_num, by norm_num, by norm_num, ?_, by norm_num, by norm_num⟩
  show 1 ≤ monthLength (isLeapYear 2024) 1
  rw [hleap]
  norm_num [monthLength]

lemma dayOfYear_jan1_2024 : dayOfYear (⟨2024, 1, 1, 0⟩ : JsDate) = 1 := by
  rw [dayOfYear_eq_ordinal _ validDate_jan1_2024]
  simp [ordinalDayOfYear, daysBeforeMonth]

lemma gamma_one : gamma 1 = 0 := by
  unfold gamma
  norm_num

lemma decl_zero : decl 0 = -0.402449 := by
  unfold decl
  norm_num

lemma eqTime_zero : eqTime 0 = -2.90416896 := by
  unfold eqTime
  norm_num

lemma eqTime_polar : eqTime (gamma (dayOfYear (⟨2024, 1, 1, 0⟩ : JsDate))) = -2.90416896 := by
  rw [dayOfYear_jan1_2024, gamma_one, eqTime_zero]

lemma haMinutes_polar_eq :
    haMinutes ⟨2024, 1, 1, 0⟩ 67.5 =
      Real.arccos (cosH 67.5 (-0.402449)) * 180 / π * 4 := by
  unfold haMinutes
  rw [dayOfYear_jan1_2024, gamma_one, decl_zero,
    clampCos_of_mem (by linarith [cosH_polar_bounds.1]) (by linarith [cosH_polar_bounds.2])]

/-- At this latitude and date the sun is up for strictly between 0 and
120 minutes: the hour-angle half-width lies in (0, 60). -/
lemma ha_polar_bounds :
    0 < haMinutes ⟨2024, 1, 1, 0⟩ 67.5 ∧ haMinutes ⟨2024, 1, 1, 0⟩ 67.5 < 60 := by
  obtain ⟨hc1, hc2⟩ := cosH_polar_bounds
  have hπ : (0 : ℝ) < π := Real.pi_pos
  have harcpos : 0 < Real.arccos (cosH 67.5 (-0.402449)) :=
    Real.arccos_pos.mpr (by linarith)
  have harclt : Real.arccos (cosH 67.5 (-0.402449)) < π / 12 := by
    by_contra hcon
    push_neg at hcon
    have hle : cos (Real.arccos (cosH 67.5 (-0.402449))) ≤ cos (π / 12) :=
      Real.cos_le_cos_of_nonneg_of_le_pi (by positivity) (Real.arccos_le_pi _) hcon
    rw [Real.cos_arccos (by linarith) (by linarith)] at hle
    have hcosb := cos_pi_div_twelve_lt
    linarith
  rw [haMinutes_polar_eq]
  constructor
  · exact mul_pos (div_pos (by linarith) hπ) (by norm_num)
  · rw [show Real.arccos (cosH 67.5 (-0.402449)) * 180 / π * 4
        = Real.arccos (cosH 67.5 (-0.402449)) * 720 / π by ring]
    rw [div_lt_iff₀ hπ]
    nlinarith

/-- The concrete counterexample longitude: chosen so that the computed
sunrise lands exactly on −120 minutes (a negative multiple of 60).
Numerically ≈ 21.3 degrees. -/
noncomputable def polarLng : ℝ :=
  (840 + ((tzOffsetMinutes (-720) : ℤ) : ℝ)
    - eqTime (gamma (dayOfYear (⟨2024, 1, 1, 0⟩ : JsDate)))
    - haMinutes ⟨2024, 1, 1, 0⟩ 67.5) / 4

lemma tzOffsetMinutes_neg720 : tzOffsetMinutes (-720) = -720 := by decide

lemma polarLng_valid : ValidLocation 67.5 polarLng := by
  obtain ⟨h1, h2⟩ := ha_polar_bounds
  unfold polarLng ValidLocation
  rw [eqTime_polar, tzOffsetMinutes_neg720]
  norm_num
  constructor <;> linarith

/-- At the counterexample input, sunrise is exactly −120 minutes and
solar noon is −120 plus the hour-angle half-width. -/
lemma sun_polar_minutes :
    (getSunTimes ⟨2024, 1, 1, 0⟩ 67.5 polarLng (-720)).sunrise = -120 ∧
    (getSunTimes ⟨2024, 1, 1, 0⟩ 67.5 polarLng (-720)).solarNoon =
      -120 + haMinutes ⟨2024, 1, 1, 0⟩ 67.5 := by
  simp only [getSunTimes, solarNoonMinutes]
  unfold polarLng
  constructor <;> ring

lemma minutesToDate_neg120 :
    minutesToDate ⟨2024, 1, 1, 0⟩ (-120) = midnightMinutes ⟨2024, 1, 1, 0⟩ - 120 := by
  have hr : jsRem (-120 : ℝ) 60 = 0 := by
    unfold jsRem
    rw [jsTrunc_of_neg (by norm_num : (-120 : ℝ) / 60 < 0)]
    rw [show ⌈(-120 : ℝ) / 60⌉ = -2 from by
      rw [Int.ceil_eq_iff]
      norm_num]
    norm_num
  rw [minutesToDate_of_neg_exact _ (by norm_num) hr]
  ring

lemma minutesToDate_polar_noon_lt :
    minutesToDate ⟨2024, 1, 1, 0⟩ (-120 + haMinutes ⟨2024, 1, 1, 0⟩ 67.5) <
      midnightMinutes ⟨2024, 1, 1, 0⟩ - 120 := by
  obtain ⟨h1, h2⟩ := ha_polar_bounds
  have hm1 : (-120 : ℝ) < -120 + haMinutes ⟨2024, 1, 1, 0⟩ 67.5 := by linarith
  have hm2 : (-120 : ℝ) + haMinutes ⟨2024, 1, 1, 0⟩ 67.5 < -60 := by linarith
  have hceil : ⌈(-120 + haMinutes ⟨2024, 1, 1, 0⟩ 67.5) / 60⌉ = -1 := by
    rw [Int.ceil_eq_iff]
    constructor
    · push_cast
      rw [lt_div_iff₀ (by norm_num : (0 : ℝ) < 60)]
      linarith
    · push_cast
      rw [div_le_iff₀ (by norm_num : (0 : ℝ) < 60)]
      linarith
  have hr : jsRem (-120 + haMinutes ⟨2024, 1, 1, 0⟩ 67.5) 60 ≠ 0 := by
    unfold jsRem
    rw [jsTrunc_of_neg (by
      rw [div_neg_iff]
      right
      constructor <;> linarith)]
    rw [hceil]
    push_cast
    intro hcon
    linarith
  rw [minutesToDate_of_neg_inexact _ (by linarith) hr]
  have hfl : ((⌊-120 + haMinutes ⟨2024, 1, 1, 0⟩ 67.5⌋ : ℤ) : ℝ) ≤
      -120 + haMinutes ⟨2024, 1, 1, 0⟩ 67.5 := Int.floor_le _
  linarith

/-! ## Claim C1 (counterexample) -/

/-- C1 counterexample: on 1 January 2024 at latitude 67.5°, the explicit
in-range longitude `polarLng` (≈ 21.3°) and a resolvable UTC−12:00
timezone, the returned wall-clock solar-noon instant is strictly earlier
than the returned sunrise instant: the claimed ordering of the converted
instants fails.  (The minute values are −120 and −120 + h with
0 < h < 60, and the conversion maps −120 to midnight − 120 but
−120 + h one extra hour down, to midnight + ⌊−120 + h⌋ − 60.) -/
theorem c1_counterexample_polar_conversion :
    ValidDate ⟨2024, 1, 1, 0⟩ ∧ ValidLocation 67.5 polarLng ∧ ValidOffset (-720) ∧
    (getSunTimesAsDate ⟨2024, 1, 1, 0⟩ 67.5 polarLng (-720)).noon <
      (getSunTimesAsDate ⟨2024, 1, 1, 0⟩ 67.5 polarLng (-720)).sunrise := by
  refine ⟨validDate_jan1_2024, polarLng_valid, ⟨by norm_num, by norm_num⟩, ?_⟩
  have hsun := sun_polar_minutes
  simp only [getSunTimesAsDate]
  rw [hsun.1, hsun.2, minutesToDate_neg120]
  exact minutesToDate_polar_noon_lt

/-! ## Claim C1 (amended part) -/

/-- C1 (amended): at the minutes-from-midnight level the ordering
sunrise ≤ solarNoon ≤ sunset always holds for valid inputs (including
clamped polar cases); the wall-clock conversion preserves the ordering
whenever the computed sunrise minute value is nonnegative.  (The
counterexample shows the converted ordering can fail when the minute
values are negative.) -/
theorem c1_amended_ordering (date : JsDate) (lat lng : ℝ) (off : ℤ)
    (hdate : ValidDate date) (hloc : ValidLocation lat lng) (hoff : ValidOffset off) :
    ((getSunTimes date lat lng off).sunrise ≤ (getSunTimes date lat lng off).solarNoon ∧
      (getSunTimes date lat lng off).solarNoon ≤ (getSunTimes date lat lng off).sunset) ∧
    (0 ≤ (getSunTimes date lat lng off).sunrise →
      (getSunTimesAsDate date lat lng off).sunrise ≤
          (getSunTimesAsDate date lat lng off).noon ∧
        (getSunTimesAsDate date lat lng off).noon ≤
          (getSunTimesAsDate date lat lng off).sunset) := by
  have hha := haMinutes_nonneg date lat
  constructor
  · simp only [getSunTimes]
    constructor <;> linarith
  · intro h0
    simp only [getSunTimes] at h0 ⊢
    simp only [getSunTimesAsDate, getSunTimes]
    constructor
    · exact minutesToDate_mono_of_nonneg date h0 (by linarith)
    · exact minutesToDate_mono_of_nonneg date (by linarith) (by linarith)

/-- Witness for C1 (amended) at the equator on 1 January 2024 with zero
longitude and offset. -/
theorem c1_amended_ordering_witness :
    ValidDate ⟨2024, 1, 1, 0⟩ ∧ ValidLocation 0 0 ∧ ValidOffset 0 ∧
    ((getSunTimes ⟨2024, 1, 1, 0⟩ 0 0 0).sunrise ≤
        (getSunTimes ⟨2024, 1, 1, 0⟩ 0 0 0).solarNoon ∧
      (getSunTimes ⟨2024, 1, 1, 0⟩ 0 0 0).solarNoon ≤
        (getSunTimes ⟨2024, 1, 1, 0⟩ 0 0 0).sunset) := by
  have hleap : isLeapYear 2024 = true := by decide
  have hv : ValidDate ⟨2024, 1, 1, 0⟩ := by
    refine ⟨by norm_num, by norm_num, by norm_num, by norm_num, ?_, by norm_num, by norm_num⟩
    show 1 ≤ monthLength (isLeapYear 2024) 1
    rw [hleap]
    norm_num [monthLength]
  have hl : ValidLocation 0 0 := ⟨by norm_num, by norm_num, by norm_num, by norm_num⟩
  have ho : ValidOffset 0 := ⟨by norm_num, by norm_num⟩
  exact ⟨hv, hl, ho, (c1_amended_ordering ⟨2024, 1, 1, 0⟩ 0 0 0 hv hl ho).1⟩

end VedicCalendar
